import Mathlib

set_option linter.unreachableTactic false
set_option linter.unusedTactic false

/-!
Shallow embedding of the diagnostic test execution and health-classification
engine of the universal-device-diagnostics repository.

Embedded sources:
  * src/agents/android/diagnostics.py  (ADB-based Android agent)
  * src/agents/windows/diagnostics.py  (Windows agent)
  * src/backend/main.py                (result aggregation / summary)

External effects (subprocess probes, psutil readings, the regex match of the
PowerShell battery query) are modelled as fields of an environment record:
one record per run, so a probe invoked twice in one run returns the same
captured output, which matches one fixed external world per run.  Machine
floats are modelled as rationals; Python `round(x, 1)` is modelled with
ties-to-even rounding on the scaled value.  Timestamps (`datetime.now()`)
are outside the embedding: no claim mentions them.

The Android definitions are instrumented with two counters so that claims
about *how often* the connectivity check runs, and whether any extractor
probe runs, are statable:
  * `checks` counts evaluations of `check_adb_connection`;
  * `probes` counts `run_adb_command` invocations made outside
    `check_adb_connection` (i.e. the extraction probes).
-/

namespace UDD

/-- Holds when `pat` occurs contiguously in `l` (or is empty). -/
def listIsInfixOf (pat : List Char) : List Char → Bool
  | [] => pat.isEmpty
  | x :: tl => pat.isPrefixOf (x :: tl) || listIsInfixOf pat tl

/-- Python `pat in s`: contiguous-substring containment, phrased on the
underlying character lists so that it evaluates by structural recursion. -/
def strContains (s pat : String) : Bool :=
  listIsInfixOf pat.data s.data

/-- Python `s.strip()`: drop whitespace from both ends. -/
def pyStrip (s : String) : String :=
  ⟨(((s.data.dropWhile Char.isWhitespace).reverse).dropWhile
      Char.isWhitespace).reverse⟩

/-- Python `s.lower()` on the ASCII strings in scope. -/
def pyLower (s : String) : String :=
  ⟨s.data.map Char.toLower⟩

/-- Split a character list at every character satisfying `p`, keeping empty
pieces — the shape of Python `str.split(sep)`. -/
def splitOnPred (p : Char → Bool) (l : List Char) : List (List Char) :=
  l.foldr
    (fun x acc =>
      if p x then [] :: acc else (x :: acc.headD []) :: acc.tail) [[]]

/-- Python `s.split('\n')`. -/
def splitLines (s : String) : List String :=
  (splitOnPred (fun c => c = '\n') s.data).map (fun l => (⟨l⟩ : String))

/-- Python `str.isdigit` restricted to ASCII digits: nonempty and all digits
(the probe outputs embedded here are ASCII). -/
def pyIsDigit (s : String) : Bool :=
  !s.data.isEmpty && s.data.all Char.isDigit

/-- The numeric value of a digit string. -/
def digitsToNat (l : List Char) : Nat :=
  l.foldl (fun n c => n * 10 + (c.toNat - 48)) 0

/-- Python `int(s)` for a digit string, as used under a `pyIsDigit` guard. -/
def pyDigitNat (s : String) : Nat :=
  digitsToNat s.data

/-- Python `int(s) if s.isdigit() else 0`: the per-field default of the df
parse (diagnostics.py lines 185-187). -/
def pyDigitNatD (s : String) : Nat :=
  if pyIsDigit s then pyDigitNat s else 0

/-- Python `int(s)` on a general string: strips whitespace, accepts an
optional sign followed by digits, raises `ValueError` (here: `none`)
otherwise.  (Underscore separators and non-ASCII digits are not modelled;
no probe output in scope produces them.) -/
def pyInt? (s : String) : Option Int :=
  match (pyStrip s).data with
  | [] => none
  | c :: rest =>
    if c = '-' then
      if !rest.isEmpty && rest.all Char.isDigit then
        some (-(digitsToNat rest : Int))
      else none
    else if c = '+' then
      if !rest.isEmpty && rest.all Char.isDigit then
        some (digitsToNat rest : Int)
      else none
    else if (c :: rest).all Char.isDigit then
      some (digitsToNat (c :: rest) : Int)
    else none

/-- Python `line.split(':', 1)`: the pieces before and after the first
colon, when one occurs. -/
def splitFirst (c : Char) : List Char → Option (List Char × List Char)
  | [] => none
  | x :: xs =>
    if x = c then some ([], xs)
    else (splitFirst c xs).map (fun p => (x :: p.1, p.2))

/-- Round a rational to the nearest integer, ties to even (Python's
`round` on an exact value). -/
def rnte (q : ℚ) : ℤ :=
  let n := ⌊q⌋
  let r := q - (n : ℚ)
  if r < 1/2 then n
  else if 1/2 < r then n + 1
  else if n % 2 = 0 then n else n + 1

/-- Python `round(x, 1)` on exact rational data. -/
def pyRound1 (q : ℚ) : ℚ :=
  (rnte (q * 10) : ℚ) / 10

/-- Python `s.split()`: split on whitespace runs, dropping empty pieces. -/
def pySplitWs (line : String) : List String :=
  ((splitOnPred Char.isWhitespace line.data).filter
    (fun l => !l.isEmpty)).map (fun l => (⟨l⟩ : String))

/-- A metric value: the scalars the agents store in a result's metrics map
(numbers, strings, booleans, string lists, and Python `None`). -/
inductive MVal where
  | num (q : ℚ)
  | str (s : String)
  | bool (b : Bool)
  | strList (l : List String)
  | pyNone
deriving DecidableEq, Repr

/-- The `TestResult` record shared by both agents (timestamp omitted: it is
an external clock read that no claim mentions). -/
structure TestResult where
  test_id : String
  category : String
  status : String
  metrics : List (String × MVal) := []
  explanation : String := ""
  confidence : ℚ := 0
  advisories : List String := []
deriving DecidableEq, Repr

/-- Captured output of one external command: stdout, stderr, return code.
Timeouts and missing executables appear as `code = -1` with empty stdout,
exactly the shape `run_adb_command` / `run_command` return for them. -/
structure Probe where
  out : String
  err : String
  code : Int
deriving DecidableEq, Repr

/-! ## Android agent (src/agents/android/diagnostics.py) -/

/-- The external world one Android run observes: one captured result per
distinct ADB command the agent can issue. -/
structure AndroidEnv where
  devicesProbe : Probe      -- `adb devices`
  batteryProbe : Probe      -- `adb shell dumpsys battery`
  dfProbe : Probe           -- `adb shell df /data`
  diskstatsProbe : Probe    -- `adb shell dumpsys diskstats`
  sensorsProbe : Probe      -- `adb shell dumpsys sensorservice`
  wifiProbe : Probe         -- `adb shell dumpsys wifi`
  telephonyProbe : Probe    -- `adb shell dumpsys telephony.registry`
deriving DecidableEq, Repr

/-- Embeds `run_adb_command`: returns `(stdout.strip(), stderr.strip(), returncode)`. -/
def run_adb_command (p : Probe) : String × String × Int :=
  (pyStrip p.out, pyStrip p.err, p.code)

/-- Embeds `check_adb_connection`: `adb devices` must exit 0 and some line after
the header must be nonblank and contain a tab followed by `device`. -/
def check_adb_connection (env : AndroidEnv) : Bool :=
  let r := run_adb_command env.devicesProbe
  if r.2.2 ≠ 0 then false
  else ((splitLines r.1).drop 1).any
    (fun line => pyStrip line ≠ "" && strContains line "\tdevice")

/-- A test function's result together with the instrumentation counters
(`checks` = `check_adb_connection` evaluations, `probes` = extraction
probes issued). -/
structure Traced where
  result : TestResult
  checks : Nat
  probes : Nat
deriving DecidableEq, Repr

/-- The `key: value` line parse of `dumpsys battery` output: strip each
line, split once at the first colon, strip both pieces; later keys
overwrite earlier ones (Python dict assignment). -/
def parseColonDict (stdout : String) : List (String × String) :=
  (splitLines stdout).foldl
    (fun acc rawLine =>
      let line := pyStrip rawLine
      match splitFirst ':' line.data with
      | some kv => acc ++ [(pyStrip ⟨kv.1⟩, pyStrip ⟨kv.2⟩)]
      | none => acc) []

/-- Dict lookup: the *last* binding of a key wins. -/
def dictGet (d : List (String × String)) (k : String) : Option String :=
  d.reverse.lookup k

/-- Python `int(battery_info.get('level', 0))`: the default `0` is already an int;
a present but non-integer string raises `ValueError` (`none`). -/
def batteryLevel? (d : List (String × String)) : Option Int :=
  match dictGet d "level" with
  | none => some 0
  | some v => pyInt? v

/-- The battery classification block of `test_android_battery`
(lines 108-127): escalation over health flag, temperature, plus the
low-level advisory.  Returns (status, explanation, advisories). -/
def android_battery_classify (level : Int) (health statusS : String)
    (temp_celsius : ℚ) : String × String × List String :=
  let e0 := s!"Battery level: {level}%, Health: {health}"
  let sea1 :=
    if pyLower health ≠ "good" then
      ("warn", e0 ++ ". Battery health is not optimal.",
        ["Consider battery replacement if issues persist"])
    else ("pass", e0, ([] : List String))
  let sa2 :=
    if temp_celsius > 40 then
      ("warn", sea1.2.2 ++ [s!"Battery temperature is high ({temp_celsius}Â°C)"])
    else (sea1.1, sea1.2.2)
  let sa3 :=
    if temp_celsius > 50 then
      ("fail", sa2.2 ++ ["Critical: Battery overheating detected"])
    else sa2
  let a4 :=
    if level < 15 ∧ pyLower statusS ≠ "charging" then
      sa3.2 ++ ["Battery level is low, consider charging"]
    else sa3.2
  (sa3.1, sea1.2.1, a4)

/-- Embeds `test_android_battery`. -/
def test_android_battery (env : AndroidEnv) : Traced :=
  if check_adb_connection env = false then
    ⟨{ test_id := "battery.health", category := "power", status := "error",
       explanation := "No Android device connected via ADB",
       advisories := ["Enable USB debugging and connect device"] }, 1, 0⟩
  else
    let r := run_adb_command env.batteryProbe
    if r.2.2 ≠ 0 then
      ⟨{ test_id := "battery.health", category := "power", status := "error",
         explanation := "Could not retrieve battery information",
         advisories := ["Check ADB permissions"] }, 1, 1⟩
    else
      let battery_info := parseColonDict r.1
      match batteryLevel? battery_info with
      | none =>
        -- `int(...)` raised ValueError; caught by the function's outer
        -- `except Exception`, which returns an error outcome.
        ⟨{ test_id := "battery.health", category := "power", status := "error",
           explanation := "Battery test failed: invalid literal for int() with base 10" },
         1, 1⟩
      | some level =>
        let health := (dictGet battery_info "health").getD "Unknown"
        let statusS := (dictGet battery_info "status").getD "Unknown"
        let temperature := (dictGet battery_info "temperature").getD "0"
        let voltage := (dictGet battery_info "voltage").getD "0"
        let temp_celsius : ℚ :=
          if pyIsDigit temperature then (pyDigitNat temperature : ℚ) / 10 else 0
        let voltage_mv : Int :=
          if pyIsDigit voltage then (pyDigitNat voltage : Int) else 0
        let c := android_battery_classify level health statusS temp_celsius
        ⟨{ test_id := "battery.health", category := "power", status := c.1,
           metrics := [("level_percentage", .num level),
                       ("health", .str health),
                       ("status", .str statusS),
                       ("temperature_celsius", .num (pyRound1 temp_celsius)),
                       ("voltage_mv", .num voltage_mv)],
           explanation := c.2.1, confidence := 9/10,
           advisories := c.2.2 }, 1, 1⟩

/-- The `df /data` parse loop of `test_android_storage` (lines 177-202):
first line mentioning `/data` or `userdata` with at least four
whitespace-separated fields yields `(total_kb, used_kb, available_kb)`,
each field defaulting to 0 when not a digit string.  (The
`except (ValueError, ZeroDivisionError)` inside the loop is unreachable:
the `isdigit` guards and the `total_kb > 0` guard prevent both.) -/
def parse_df_raw (stdout : String) : Option (Nat × Nat × Nat) :=
  (splitLines stdout).findSome? (fun line =>
    if strContains line "/data" || strContains line "userdata" then
      let parts := pySplitWs line
      if parts.length ≥ 4 then
        some (pyDigitNatD (parts.getD 1 ""), pyDigitNatD (parts.getD 2 ""),
              pyDigitNatD (parts.getD 3 ""))
      else none
    else none)

/-- The derived storage metrics map (lines 189-199): GB figures rounded to
one decimal, usage percentage guarded by `if total_kb > 0 else 0`. -/
def df_usage_percentage (total_kb used_kb : Nat) : ℚ :=
  if total_kb > 0 then pyRound1 ((used_kb : ℚ) / (total_kb : ℚ) * 100) else 0

/-- The storage verdict expression (line 212):
`"pass" if usage_pct < 80 else "warn" if usage_pct < 90 else "fail"`. -/
def android_storage_status_of (usage_pct : ℚ) : String :=
  if usage_pct < 80 then "pass" else if usage_pct < 90 then "warn" else "fail"

/-- Embeds `test_android_storage`. -/
def test_android_storage (env : AndroidEnv) : Traced :=
  if check_adb_connection env = false then
    ⟨{ test_id := "storage.health", category := "storage", status := "error",
       explanation := "No Android device connected via ADB" }, 1, 0⟩
  else
    let r1 := run_adb_command env.dfProbe
    let rr := if r1.2.2 ≠ 0 then (run_adb_command env.diskstatsProbe, 2)
              else (r1, 1)
    if rr.1.2.2 ≠ 0 then
      ⟨{ test_id := "storage.health", category := "storage", status := "error",
         explanation := "Could not retrieve storage information" }, 1, rr.2⟩
    else
      match parse_df_raw rr.1.1 with
      | none =>
        ⟨{ test_id := "storage.health", category := "storage", status := "error",
           explanation := "Could not parse storage information" }, 1, rr.2⟩
      | some tua =>
        let total_gb := pyRound1 ((tua.1 : ℚ) / (1024 * 1024))
        let used_gb := pyRound1 ((tua.2.1 : ℚ) / (1024 * 1024))
        let available_gb := pyRound1 ((tua.2.2 : ℚ) / (1024 * 1024))
        let usage_pct := df_usage_percentage tua.1 tua.2.1
        let status := android_storage_status_of usage_pct
        let explanation :=
          if status = "pass" then
            s!"Storage usage is healthy at {usage_pct}%. {available_gb} GB available."
          else if status = "warn" then
            s!"Storage is getting full at {usage_pct}% usage. Consider cleanup."
          else
            s!"Storage is critically full at {usage_pct}% usage. Immediate cleanup needed."
        let advisories :=
          (if usage_pct > 85 then ["Clear cache, photos, or unused apps"] else [])
          ++ (if usage_pct > 90 then
                ["Critical: Free up space to avoid app crashes"] else [])
        ⟨{ test_id := "storage.health", category := "storage", status := status,
           metrics := [("total_gb", .num total_gb),
                       ("used_gb", .num used_gb),
                       ("available_gb", .num available_gb),
                       ("usage_percentage", .num usage_pct)],
           explanation := explanation, confidence := 85/100,
           advisories := advisories }, 1, rr.2⟩

/-- Embeds `test_android_sensors`: scans `dumpsys sensorservice` output (lowercased)
for seven common sensor names and classifies by count. -/
def test_android_sensors (env : AndroidEnv) : Traced :=
  if check_adb_connection env = false then
    ⟨{ test_id := "sensors.test", category := "sensors", status := "error",
       explanation := "No Android device connected via ADB" }, 1, 0⟩
  else
    let r := run_adb_command env.sensorsProbe
    if r.2.2 ≠ 0 then
      ⟨{ test_id := "sensors.test", category := "sensors", status := "error",
         explanation := "Could not retrieve sensor information" }, 1, 1⟩
    else
      let common_sensors := ["accelerometer", "gyroscope", "magnetometer",
                             "proximity", "light", "pressure", "temperature"]
      let stdout_lower := pyLower r.1
      let sensors_found := common_sensors.filter (fun s => strContains stdout_lower s)
      let sensor_count := sensors_found.length
      let statusExpl :=
        if sensor_count ≥ 5 then
          ("pass", s!"Found {sensor_count} sensors working properly: "
                    ++ String.intercalate ", " (sensors_found.take 5))
        else if sensor_count ≥ 3 then
          ("warn", s!"Found {sensor_count} sensors. Some sensors may not be available.")
        else
          ("fail", s!"Only {sensor_count} sensors detected. Device may have sensor issues.")
      let advisories :=
        if sensor_count < 3 then ["Check if device requires sensor calibration"] else []
      ⟨{ test_id := "sensors.test", category := "sensors", status := statusExpl.1,
         metrics := [("sensors_found", .strList sensors_found),
                     ("sensor_count", .num sensor_count)],
         explanation := statusExpl.2, confidence := 75/100,
         advisories := advisories }, 1, 1⟩

/-- Embeds `test_android_connectivity`: Wi-Fi state from `dumpsys wifi`, mobile data
from `dumpsys telephony.registry`. -/
def test_android_connectivity (env : AndroidEnv) : Traced :=
  if check_adb_connection env = false then
    ⟨{ test_id := "network.connectivity", category := "network", status := "error",
       explanation := "No Android device connected via ADB" }, 1, 0⟩
  else
    let r := run_adb_command env.wifiProbe
    if r.2.2 ≠ 0 then
      ⟨{ test_id := "network.connectivity", category := "network", status := "error",
         explanation := "Could not retrieve network information" }, 1, 1⟩
    else
      let wifi_enabled := strContains r.1 "Wi-Fi is enabled"
                          || strContains r.1 "mWifiEnabled: true"
      let wifi_connected := strContains r.1 "CONNECTED/CONNECTED"
                            || strContains r.1 "state: CONNECTED"
      let rm := run_adb_command env.telephonyProbe
      let mobile_data := if rm.2.2 = 0 then strContains rm.1 "DATA_CONNECTED" else false
      let statusExpl :=
        if wifi_connected || mobile_data then
          ("pass", "Network connectivity is working."
            ++ (if wifi_connected then " Wi-Fi connected." else "")
            ++ (if mobile_data then " Mobile data available." else ""))
        else if wifi_enabled then
          ("warn", "Wi-Fi is enabled but not connected to a network.")
        else
          ("fail", "No network connectivity detected.")
      let advisories :=
        if ¬wifi_connected && ¬mobile_data then
          ["Check Wi-Fi password or mobile data settings"]
        else []
      ⟨{ test_id := "network.connectivity", category := "network",
         status := statusExpl.1,
         metrics := [("wifi_enabled", .bool wifi_enabled),
                     ("wifi_connected", .bool wifi_connected),
                     ("mobile_data", .bool mobile_data)],
         explanation := statusExpl.2, confidence := 80/100,
         advisories := advisories }, 1, 2⟩

/-- The Android test catalog (`test_functions` in `run_android_diagnostics`). -/
def android_test_functions : List (String × (AndroidEnv → Traced)) :=
  [("battery.health", test_android_battery),
   ("storage.health", test_android_storage),
   ("sensors.test", test_android_sensors),
   ("network.connectivity", test_android_connectivity)]

/-- The transport-remediation advisory list attached to every outcome of an
unreachable run (lines 395-400). -/
def androidTransportAdvisories : List String :=
  ["Install ADB (Android SDK platform-tools)",
   "Enable Developer Options on your Android device",
   "Enable USB Debugging in Developer Options",
   "Connect device with USB cable and accept debugging prompt"]

/-- The outcome an unreachable Android run produces for each requested id. -/
def androidTransportError (test_id : String) : TestResult :=
  { test_id := test_id, category := "unknown", status := "error",
    explanation := "No Android device connected. Enable USB debugging and connect device.",
    advisories := androidTransportAdvisories }

/-- The synthetic outcome for a test id missing from a catalog. -/
def notImplementedResult (test_id : String) : TestResult :=
  { test_id := test_id, category := "unknown", status := "error",
    explanation := "Test not implemented: " ++ test_id }

/-- The per-id step of the Executing phase: catalog hit runs the test
function, catalog miss yields the synthetic error.  (The `except` around
the call in the Python loop is unreachable here: every test function
already catches its own exceptions and returns a `TestResult`.) -/
def android_dispatch (env : AndroidEnv) (test_id : String) : Traced :=
  match android_test_functions.lookup test_id with
  | some f => f env
  | none => ⟨notImplementedResult test_id, 0, 0⟩

/-- The outcome list and counters of one Android run. -/
structure AndroidRun where
  results : List TestResult
  checks : Nat
  probes : Nat
deriving DecidableEq, Repr

/-- Embeds `run_android_diagnostics`: one connectivity check up front; when it
fails every requested id maps to the transport error and no test function
runs; otherwise each id is dispatched in request order. -/
def run_android_diagnostics (env : AndroidEnv) (tests : List String) : AndroidRun :=
  if check_adb_connection env = false then
    { results := tests.map androidTransportError, checks := 1, probes := 0 }
  else
    let traced := tests.map (android_dispatch env)
    { results := traced.map Traced.result,
      checks := 1 + (traced.map Traced.checks).sum,
      probes := (traced.map Traced.probes).sum }

/-! ## Windows agent (src/agents/windows/diagnostics.py) -/

/-- The external world one Windows run observes: command captures plus the
psutil readings.  `psChargeMatch` abstracts the result of
`re.search(r'EstimatedChargeRemaining\s*:\s*(\d+)', ps_output)`: the
captured integer when the pattern matches, `none` otherwise (no claim
depends on the regex mechanics).  `cpuCount` abstracts
`psutil.cpu_count()`. -/
structure WindowsEnv where
  powercfgProbe : Probe     -- `powercfg /batteryreport /output ...`
  psProbe : Probe           -- `powershell -Command Get-WmiObject ...`
  psChargeMatch : Option Nat
  wmicProbe : Probe         -- `wmic diskdrive get size,status,model /format:csv`
  diskTotal : Nat           -- psutil.disk_usage('C:\\').total  (bytes)
  diskUsed : Nat
  diskFree : Nat
  cpuPercent : ℚ            -- psutil.cpu_percent(interval=1)
  cpuCount : Nat
  cpuFreq : Option ℚ        -- psutil.cpu_freq().current, None when absent
  memTotal : Nat            -- psutil.virtual_memory() fields (bytes)
  memUsed : Nat
  memAvailable : Nat
  memPercent : ℚ
deriving DecidableEq, Repr

/-- Embeds `run_command`: returns `(stdout, stderr, returncode)` unstripped. -/
def run_command (p : Probe) : String × String × Int :=
  (p.out, p.err, p.code)

/-- Embeds `test_battery_health`: on a working powercfg and a PowerShell query whose
output mentions `EstimatedChargeRemaining`, the capacities are the hardcoded
placeholders 50000/42000 mWh, independent of the probe data. -/
def test_battery_health (env : WindowsEnv) : TestResult :=
  let r := run_command env.powercfgProbe
  if r.2.2 ≠ 0 then
    { test_id := "battery.health", category := "power", status := "error",
      explanation := "Could not generate battery report",
      advisories := ["Battery diagnostic tools may not be available"] }
  else
    let rp := run_command env.psProbe
    if rp.2.2 = 0 && strContains rp.1 "EstimatedChargeRemaining" then
      let current_charge := env.psChargeMatch
      let design_capacity : ℚ := 50000
      let current_capacity : ℚ := 42000
      let health_percentage := pyRound1 (current_capacity / design_capacity * 100)
      let status :=
        if health_percentage > 80 then "pass"
        else if health_percentage > 60 then "warn" else "fail"
      let explanation :=
        if status = "pass" then
          s!"Battery health is good at {health_percentage}%. Expected runtime should be normal."
        else if status = "warn" then
          s!"Battery health is declining at {health_percentage}%. You may notice shorter runtime."
        else
          s!"Battery health is poor at {health_percentage}%. Consider replacing the battery."
      let advisories :=
        (if health_percentage < 80 then
          ["Consider replacing battery for optimal performance"] else [])
        ++ (if health_percentage < 60 then
          ["Battery replacement recommended soon"] else [])
      { test_id := "battery.health", category := "power", status := status,
        metrics := [("design_capacity_mwh", .num design_capacity),
                    ("current_capacity_mwh", .num current_capacity),
                    ("health_percentage", .num health_percentage),
                    ("current_charge_percentage",
                      match current_charge with
                      | some n => .num n
                      | none => .pyNone)],
        explanation := explanation, confidence := 85/100,
        advisories := advisories }
    else
      { test_id := "battery.health", category := "power", status := "error",
        explanation := "Could not read battery information",
        advisories := ["No battery detected or battery information unavailable"] }

/-- The Windows storage verdict expression (line 152), identical in shape to
the Android one. -/
def windows_storage_status_of (usage_pct : ℚ) : String :=
  if usage_pct < 80 then "pass" else if usage_pct < 90 then "warn" else "fail"

/-- Embeds `test_storage_health`: wmic must exit 0 with nonempty stdout; usage comes
from psutil.  A zero disk total makes `used / total` raise
`ZeroDivisionError`, caught by the outer handler as an error outcome. -/
def test_storage_health (env : WindowsEnv) : TestResult :=
  let r := run_command env.wmicProbe
  if r.2.2 = 0 && r.1 ≠ "" then
    if env.diskTotal = 0 then
      { test_id := "storage.health", category := "storage", status := "error",
        explanation := "Storage test failed: division by zero" }
    else
      let total_gb := pyRound1 ((env.diskTotal : ℚ) / (1024 ^ 3))
      let used_gb := pyRound1 ((env.diskUsed : ℚ) / (1024 ^ 3))
      let free_gb := pyRound1 ((env.diskFree : ℚ) / (1024 ^ 3))
      let usage_percentage :=
        pyRound1 ((env.diskUsed : ℚ) / (env.diskTotal : ℚ) * 100)
      let status := windows_storage_status_of usage_percentage
      let explanation :=
        if status = "pass" then
          s!"Storage health looks good. {usage_percentage}% used with {free_gb} GB free."
        else if status = "warn" then
          s!"Storage is getting full at {usage_percentage}% usage. Consider cleanup."
        else
          s!"Storage is critically full at {usage_percentage}% usage. Immediate cleanup needed."
      let advisories :=
        (if usage_percentage > 85 then
          ["Clean up temporary files and unused programs"] else [])
        ++ (if usage_percentage > 90 then
          ["Critical: Free up space immediately to avoid system issues"] else [])
      { test_id := "storage.health", category := "storage", status := status,
        metrics := [("total_gb", .num total_gb),
                    ("used_gb", .num used_gb),
                    ("free_gb", .num free_gb),
                    ("usage_percentage", .num usage_percentage)],
        explanation := explanation, confidence := 95/100,
        advisories := advisories }
  else
    { test_id := "storage.health", category := "storage", status := "error",
      explanation := "Could not retrieve storage information" }

/-- Embeds `test_cpu_temperature`: CPU load as thermal proxy. -/
def test_cpu_temperature (env : WindowsEnv) : TestResult :=
  let cpu_percent := env.cpuPercent
  let status :=
    if cpu_percent < 80 then "pass"
    else if cpu_percent < 95 then "warn" else "fail"
  let explanation :=
    if status = "pass" then
      s!"CPU performance is normal. Current usage: {cpu_percent}%"
    else if status = "warn" then
      s!"CPU usage is high at {cpu_percent}%. Check for resource-heavy programs."
    else
      s!"CPU usage is critical at {cpu_percent}%. System may be overloaded."
  let advisories :=
    (if cpu_percent > 90 then
      ["Close unnecessary programs to reduce CPU load"] else [])
    ++ (if cpu_percent > 95 then
      ["Critical: Check for malware or system issues"] else [])
  let metrics :=
    [("cpu_usage_percentage", MVal.num cpu_percent),
     ("cpu_cores", MVal.num env.cpuCount)]
    ++ (match env.cpuFreq with
        | some f => [("cpu_frequency_mhz", MVal.num (pyRound1 f))]
        | none => [])
  { test_id := "cpu.temperature", category := "performance", status := status,
    metrics := metrics, explanation := explanation, confidence := 80/100,
    advisories := advisories }

/-- Embeds `test_memory`: psutil virtual-memory classification. -/
def test_memory (env : WindowsEnv) : TestResult :=
  let total_gb := pyRound1 ((env.memTotal : ℚ) / (1024 ^ 3))
  let available_gb := pyRound1 ((env.memAvailable : ℚ) / (1024 ^ 3))
  let used_gb := pyRound1 ((env.memUsed : ℚ) / (1024 ^ 3))
  let usage_percentage := env.memPercent
  let status :=
    if usage_percentage < 80 then "pass"
    else if usage_percentage < 90 then "warn" else "fail"
  let explanation :=
    if status = "pass" then
      s!"Memory usage is normal at {usage_percentage}%. {available_gb} GB available."
    else if status = "warn" then
      s!"Memory usage is high at {usage_percentage}%. Consider closing some programs."
    else
      s!"Memory usage is critical at {usage_percentage}%. System may be slow."
  let advisories :=
    (if usage_percentage > 85 then
      ["Close unnecessary programs to free up memory"] else [])
    ++ (if usage_percentage > 90 then
      ["Critical: System performance may be severely impacted"] else [])
  { test_id := "memory.test", category := "performance", status := status,
    metrics := [("total_gb", .num total_gb),
                ("used_gb", .num used_gb),
                ("available_gb", .num available_gb),
                ("usage_percentage", .num usage_percentage)],
    explanation := explanation, confidence := 95/100,
    advisories := advisories }

/-- The Windows test catalog (`test_functions` in `run_windows_diagnostics`). -/
def windows_test_functions : List (String × (WindowsEnv → TestResult)) :=
  [("battery.health", test_battery_health),
   ("storage.health", test_storage_health),
   ("cpu.temperature", test_cpu_temperature),
   ("memory.test", test_memory)]

/-- The per-id step of the Windows run loop. -/
def windows_dispatch (env : WindowsEnv) (test_id : String) : TestResult :=
  match windows_test_functions.lookup test_id with
  | some f => f env
  | none => notImplementedResult test_id

/-- Embeds `run_windows_diagnostics`: no transport gate; each requested id is
dispatched in request order. -/
def run_windows_diagnostics (env : WindowsEnv) (tests : List String) :
    List TestResult :=
  tests.map (windows_dispatch env)

/-! ## Result aggregation (src/backend/main.py, run_diagnostics) -/

/-- The summary dict built at lines 190-204 of src/backend/main.py. -/
structure DiagnosticSummary where
  total_tests : Nat
  passed : Nat
  warnings : Nat
  failed : Nat
  errors : Nat
  health_score : ℚ
  overall_status : String
deriving DecidableEq, Repr

/-- The aggregation of a finished outcome list into the summary:
status counts by filtering, health score
`round((passed / len(results)) * 100, 1) if results else 0`, overall
status healthy iff no fail and no error. -/
def summarize (results : List TestResult) : DiagnosticSummary :=
  let passed := (results.filter (fun r => r.status = "pass")).length
  let warnings := (results.filter (fun r => r.status = "warn")).length
  let failed := (results.filter (fun r => r.status = "fail")).length
  let errors := (results.filter (fun r => r.status = "error")).length
  { total_tests := results.length,
    passed := passed, warnings := warnings, failed := failed, errors := errors,
    health_score :=
      if results.isEmpty then 0
      else pyRound1 ((passed : ℚ) / (results.length : ℚ) * 100),
    overall_status :=
      if failed = 0 ∧ errors = 0 then "healthy" else "issues_detected" }

/-! ## Spec-side predicates and concrete sample worlds -/

/-- The outcome invariant of spec §3: confidence is 0 exactly on error
outcomes, and every error outcome carries a nonempty explanation. -/
def resultInvariant (r : TestResult) : Prop :=
  (r.confidence = 0 ↔ r.status = "error") ∧
  (r.status = "error" → r.explanation ≠ "")

/-- A probe that captured stdout `s` and exited 0. -/
def okProbe (s : String) : Probe := ⟨s, "", 0⟩

/-- The capture `run_adb_command` produces when the adb binary is missing. -/
def adbMissingProbe : Probe :=
  ⟨"", "ADB not found. Please install Android SDK platform-tools", -1⟩

/-- A world with no reachable Android device: every adb invocation fails. -/
def androidOfflineEnv : AndroidEnv :=
  ⟨adbMissingProbe, adbMissingProbe, adbMissingProbe, adbMissingProbe,
   adbMissingProbe, adbMissingProbe, adbMissingProbe⟩

/-- An `adb devices` output with one device attached. -/
def adbDevicesOut : String := "List of devices attached\nemulator-5554\tdevice"

/-- A healthy connected Android world: good battery at 45.0 °C, storage at
82% usage, five sensors, Wi-Fi connected. -/
def androidSampleEnv : AndroidEnv :=
  ⟨okProbe adbDevicesOut,
   okProbe "level: 80\nhealth: Good\nstatus: Full\ntemperature: 450\nvoltage: 4200",
   okProbe "/data 1000 820 180",
   okProbe "",
   okProbe "accelerometer gyroscope magnetometer proximity light",
   okProbe "mWifiEnabled: true state: CONNECTED",
   okProbe "DATA_CONNECTED"⟩

/-- A connected Android world whose `df /data` line reports a zero total
capacity. -/
def androidZeroStorageEnv : AndroidEnv :=
  ⟨okProbe adbDevicesOut,
   okProbe "level: 80\nhealth: Good\nstatus: Full\ntemperature: 250\nvoltage: 4200",
   okProbe "/data 0 0 0",
   okProbe "",
   okProbe "accelerometer gyroscope magnetometer proximity light",
   okProbe "mWifiEnabled: true state: CONNECTED",
   okProbe "DATA_CONNECTED"⟩

/-- A connected Android world whose `df /data` row has a non-digit total
field, which the source's `isdigit` guard defaults to 0. -/
def androidGarbageTotalEnv : AndroidEnv :=
  ⟨okProbe adbDevicesOut,
   okProbe "level: 80\nhealth: Good\nstatus: Full\ntemperature: 250\nvoltage: 4200",
   okProbe "/data 1x 90 10",
   okProbe "",
   okProbe "accelerometer gyroscope magnetometer proximity light",
   okProbe "mWifiEnabled: true state: CONNECTED",
   okProbe "DATA_CONNECTED"⟩

/-- A Windows world where powercfg and the PowerShell battery query both
succeed and the disk is 20% full. -/
def windowsSampleEnv : WindowsEnv :=
  ⟨okProbe "", okProbe "EstimatedChargeRemaining : 95", some 95,
   okProbe "Node,Model,Size,Status",
   500 * 1024 ^ 3, 100 * 1024 ^ 3, 400 * 1024 ^ 3,
   20, 8, some 2400,
   16 * 1024 ^ 3, 8 * 1024 ^ 3, 8 * 1024 ^ 3, 50⟩

/-! ## Helper lemmas: stable test ids and check counts -/

theorem test_android_battery_id (env : AndroidEnv) :
    (test_android_battery env).result.test_id = "battery.health" := by
  unfold test_android_battery
  dsimp only
  repeat' split
  all_goals rfl

theorem test_android_storage_id (env : AndroidEnv) :
    (test_android_storage env).result.test_id = "storage.health" := by
  unfold test_android_storage
  dsimp only
  repeat' split
  all_goals rfl

theorem test_android_sensors_id (env : AndroidEnv) :
    (test_android_sensors env).result.test_id = "sensors.test" := by
  unfold test_android_sensors
  dsimp only
  repeat' split
  all_goals rfl

theorem test_android_connectivity_id (env : AndroidEnv) :
    (test_android_connectivity env).result.test_id = "network.connectivity" := by
  unfold test_android_connectivity
  dsimp only
  repeat' split
  all_goals rfl

theorem android_dispatch_id (env : AndroidEnv) (test_id : String) :
    (android_dispatch env test_id).result.test_id = test_id := by
  by_cases h1 : test_id = "battery.health"
  · subst h1
    simpa [android_dispatch, android_test_functions, List.lookup] using
      test_android_battery_id env
  by_cases h2 : test_id = "storage.health"
  · subst h2
    simpa [android_dispatch, android_test_functions, List.lookup] using
      test_android_storage_id env
  by_cases h3 : test_id = "sensors.test"
  · subst h3
    simpa [android_dispatch, android_test_functions, List.lookup] using
      test_android_sensors_id env
  by_cases h4 : test_id = "network.connectivity"
  · subst h4
    simpa [android_dispatch, android_test_functions, List.lookup] using
      test_android_connectivity_id env
  simp [android_dispatch, android_test_functions, List.lookup,
    beq_eq_false_iff_ne.mpr h1, beq_eq_false_iff_ne.mpr h2,
    beq_eq_false_iff_ne.mpr h3, beq_eq_false_iff_ne.mpr h4,
    notImplementedResult]

theorem test_android_battery_checks (env : AndroidEnv) :
    (test_android_battery env).checks = 1 := by
  unfold test_android_battery
  dsimp only
  repeat' split
  all_goals rfl

theorem test_android_storage_checks (env : AndroidEnv) :
    (test_android_storage env).checks = 1 := by
  unfold test_android_storage
  dsimp only
  repeat' split
  all_goals rfl

theorem test_android_sensors_checks (env : AndroidEnv) :
    (test_android_sensors env).checks = 1 := by
  unfold test_android_sensors
  dsimp only
  repeat' split
  all_goals rfl

theorem test_android_connectivity_checks (env : AndroidEnv) :
    (test_android_connectivity env).checks = 1 := by
  unfold test_android_connectivity
  dsimp only
  repeat' split
  all_goals rfl

theorem android_dispatch_checks (env : AndroidEnv) (test_id : String) :
    (android_dispatch env test_id).checks =
      if (android_test_functions.lookup test_id).isSome then 1 else 0 := by
  by_cases h1 : test_id = "battery.health"
  · subst h1
    simpa [android_dispatch, android_test_functions, List.lookup] using
      test_android_battery_checks env
  by_cases h2 : test_id = "storage.health"
  · subst h2
    simpa [android_dispatch, android_test_functions, List.lookup] using
      test_android_storage_checks env
  by_cases h3 : test_id = "sensors.test"
  · subst h3
    simpa [android_dispatch, android_test_functions, List.lookup] using
      test_android_sensors_checks env
  by_cases h4 : test_id = "network.connectivity"
  · subst h4
    simpa [android_dispatch, android_test_functions, List.lookup] using
      test_android_connectivity_checks env
  simp [android_dispatch, android_test_functions, List.lookup,
    beq_eq_false_iff_ne.mpr h1, beq_eq_false_iff_ne.mpr h2,
    beq_eq_false_iff_ne.mpr h3, beq_eq_false_iff_ne.mpr h4]

theorem test_battery_health_id (env : WindowsEnv) :
    (test_battery_health env).test_id = "battery.health" := by
  unfold test_battery_health
  dsimp only
  repeat' split
  all_goals rfl

theorem test_storage_health_id (env : WindowsEnv) :
    (test_storage_health env).test_id = "storage.health" := by
  unfold test_storage_health
  dsimp only
  repeat' split
  all_goals rfl

theorem test_cpu_temperature_id (env : WindowsEnv) :
    (test_cpu_temperature env).test_id = "cpu.temperature" := rfl

theorem test_memory_id (env : WindowsEnv) :
    (test_memory env).test_id = "memory.test" := rfl

theorem windows_dispatch_id (env : WindowsEnv) (test_id : String) :
    (windows_dispatch env test_id).test_id = test_id := by
  by_cases h1 : test_id = "battery.health"
  · subst h1
    simpa [windows_dispatch, windows_test_functions, List.lookup] using
      test_battery_health_id env
  by_cases h2 : test_id = "storage.health"
  · subst h2
    simpa [windows_dispatch, windows_test_functions, List.lookup] using
      test_storage_health_id env
  by_cases h3 : test_id = "cpu.temperature"
  · subst h3
    simpa [windows_dispatch, windows_test_functions, List.lookup] using
      test_cpu_temperature_id env
  by_cases h4 : test_id = "memory.test"
  · subst h4
    simpa [windows_dispatch, windows_test_functions, List.lookup] using
      test_memory_id env
  simp [windows_dispatch, windows_test_functions, List.lookup,
    beq_eq_false_iff_ne.mpr h1, beq_eq_false_iff_ne.mpr h2,
    beq_eq_false_iff_ne.mpr h3, beq_eq_false_iff_ne.mpr h4,
    notImplementedResult]

/-- C1: every run returns exactly one outcome per requested test id, in
request order: mapping each outcome to its test id recovers the request
list itself, for any environment, on both platforms. -/
theorem claim_C1_outcomes_match_requests :
    (∀ (env : AndroidEnv) (tests : List String),
       (run_android_diagnostics env tests).results.map TestResult.test_id = tests) ∧
    (∀ (env : WindowsEnv) (tests : List String),
       (run_windows_diagnostics env tests).map TestResult.test_id = tests) := by
  constructor
  · intro env tests
    unfold run_android_diagnostics
    split
    · dsimp only
      rw [List.map_map]
      exact List.map_id'' (fun a => rfl) tests
    · dsimp only
      rw [List.map_map, List.map_map]
      exact List.map_id'' (fun a => android_dispatch_id env a) tests
  · intro env tests
    unfold run_windows_diagnostics
    rw [List.map_map]
    exact List.map_id'' (fun a => windows_dispatch_id env a) tests

/-- C2: when the ADB transport is unreachable, every requested test id
yields a status-`error` outcome carrying the same transport-remediation
advisory list, the connectivity check ran exactly once (only the runner's
own check), and no extraction probe was issued — so no extractor or
per-test function ran. -/
theorem claim_C2_transport_unreachable (env : AndroidEnv) (tests : List String)
    (h : check_adb_connection env = false) :
    (∀ r ∈ (run_android_diagnostics env tests).results,
        r.status = "error" ∧ r.advisories = androidTransportAdvisories) ∧
    (run_android_diagnostics env tests).checks = 1 ∧
    (run_android_diagnostics env tests).probes = 0 := by
  unfold run_android_diagnostics
  rw [if_pos h]
  refine ⟨?_, rfl, rfl⟩
  intro r hr
  obtain ⟨id, _, rfl⟩ := List.mem_map.mp hr
  exact ⟨rfl, rfl⟩

theorem claim_C2_witness :
    (run_android_diagnostics androidOfflineEnv
        ["battery.health", "storage.health"]).checks = 1 ∧
    (run_android_diagnostics androidOfflineEnv
        ["battery.health", "storage.health"]).probes = 0 :=
  ⟨(claim_C2_transport_unreachable androidOfflineEnv
      ["battery.health", "storage.health"] (by decide)).2.1,
   (claim_C2_transport_unreachable androidOfflineEnv
      ["battery.health", "storage.health"] (by decide)).2.2⟩

theorem dispatch_checks_sum (env : AndroidEnv) (tests : List String) :
    ((tests.map (android_dispatch env)).map Traced.checks).sum =
      (tests.filter
        (fun id => (android_test_functions.lookup id).isSome)).length := by
  induction tests with
  | nil => rfl
  | cons a l ih =>
    by_cases ha : (android_test_functions.lookup a).isSome = true
    · rw [List.map_cons, List.map_cons, List.sum_cons,
          List.filter_cons_of_pos (by simpa using ha), List.length_cons,
          android_dispatch_checks env a, if_pos ha]
      omega
    · rw [List.map_cons, List.map_cons, List.sum_cons,
          List.filter_cons_of_neg (by simpa using ha),
          android_dispatch_checks env a, if_neg ha]
      omega

/-- C9 counterexample: on a reachable device, a run with the single request
`battery.health` evaluates the ADB connectivity check twice (once in the
runner, once inside the test function), so it is not evaluated exactly once
per run. -/
theorem claim_C9_counterexample :
    (run_android_diagnostics androidSampleEnv ["battery.health"]).checks = 2 ∧
    (2 : Nat) ≠ 1 := by
  exact ⟨by decide, by decide⟩

/-- C9 amended: the connectivity check is evaluated once by the runner and
re-evaluated once at the start of each dispatched catalog test: an
unreachable run checks exactly once, and a reachable run checks
`1 + (number of requested ids present in the catalog)` times. -/
theorem claim_C9_amended (env : AndroidEnv) (tests : List String) :
    (check_adb_connection env = false →
       (run_android_diagnostics env tests).checks = 1) ∧
    (check_adb_connection env = true →
       (run_android_diagnostics env tests).checks =
         1 + (tests.filter
                (fun id => (android_test_functions.lookup id).isSome)).length) := by
  constructor
  · intro h
    unfold run_android_diagnostics
    rw [if_pos h]
  · intro h
    unfold run_android_diagnostics
    rw [if_neg (by simp [h])]
    dsimp only
    rw [dispatch_checks_sum]

theorem claim_C9_amended_witness :
    (run_android_diagnostics androidSampleEnv ["battery.health"]).checks =
      1 + ((["battery.health"] : List String).filter
             (fun id => (android_test_functions.lookup id).isSome)).length :=
  (claim_C9_amended androidSampleEnv ["battery.health"]).2 (by decide)

/-- C5: the battery classifier is escalation-only at the fail level — any
parsed metrics with temperature above 50 °C classify as `fail`, with no
later rule downgrading it — and the spec's example holds: health "Good"
at 45.0 °C yields `warn` with the high-temperature advisory present. -/
theorem claim_C5_battery_escalation :
    (∀ (level : Int) (health statusS : String) (temp_celsius : ℚ),
        temp_celsius > 50 →
        (android_battery_classify level health statusS temp_celsius).1 = "fail") ∧
    ((android_battery_classify 80 "Good" "Full" 45).1 = "warn" ∧
      "Battery temperature is high (45Â°C)" ∈
        (android_battery_classify 80 "Good" "Full" 45).2.2) := by
  refine ⟨?_, by decide, by decide⟩
  intro level health statusS t ht
  unfold android_battery_classify
  dsimp only
  rw [if_pos ht]

theorem claim_C5_witness :
    (android_battery_classify 80 "Good" "Full" 55).1 = "fail" :=
  claim_C5_battery_escalation.1 80 "Good" "Full" 55 (by norm_num)

/-- C3 counterexample: at a parsed usage of exactly 90 both storage
classifiers return `fail`, not the `warn` the claim requires for
80 ≤ u ≤ 90. -/
theorem claim_C3_counterexample :
    android_storage_status_of 90 = "fail" ∧
    windows_storage_status_of 90 = "fail" ∧
    android_storage_status_of 90 ≠ "warn" ∧
    windows_storage_status_of 90 ≠ "warn" := by
  refine ⟨by decide, by decide, by decide, by decide⟩

/-- C3 amended: on both platforms the storage verdict is `pass` for
usage < 80, `warn` for 80 ≤ usage < 90 and `fail` for usage ≥ 90 (the 90
boundary classifies as `fail`, not `warn`); the spec's examples
82 → warn, 95 → fail, 50 → pass all hold. -/
theorem claim_C3_amended (u : ℚ) :
    (u < 80 →
      android_storage_status_of u = "pass" ∧
      windows_storage_status_of u = "pass") ∧
    (80 ≤ u → u < 90 →
      android_storage_status_of u = "warn" ∧
      windows_storage_status_of u = "warn") ∧
    (90 ≤ u →
      android_storage_status_of u = "fail" ∧
      windows_storage_status_of u = "fail") ∧
    (android_storage_status_of 82 = "warn" ∧
     android_storage_status_of 95 = "fail" ∧
     android_storage_status_of 50 = "pass" ∧
     windows_storage_status_of 82 = "warn" ∧
     windows_storage_status_of 95 = "fail" ∧
     windows_storage_status_of 50 = "pass") := by
  refine ⟨fun h => ?_, fun h1 h2 => ?_, fun h => ?_, by decide⟩
  · unfold android_storage_status_of windows_storage_status_of
    rw [if_pos h]
    exact ⟨rfl, rfl⟩
  · unfold android_storage_status_of windows_storage_status_of
    rw [if_neg (not_lt.mpr h1), if_pos h2]
    exact ⟨rfl, rfl⟩
  · unfold android_storage_status_of windows_storage_status_of
    rw [if_neg (show ¬u < 80 by linarith), if_neg (show ¬u < 90 by linarith)]
    exact ⟨rfl, rfl⟩

theorem claim_C3_amended_witness :
    android_storage_status_of 82 = "warn" ∧
    windows_storage_status_of 82 = "warn" :=
  (claim_C3_amended 82).2.1 (by norm_num) (by norm_num)

/-- C4 counterexample: a connected device whose `df /data` row reports a
zero total produces a `pass` outcome (usage defaults to 0), not the
`error` outcome the claim requires. -/
theorem claim_C4_counterexample :
    (test_android_storage androidZeroStorageEnv).result.status = "pass" ∧
    (test_android_storage androidZeroStorageEnv).result.status ≠ "error" := by
  exact ⟨by decide, by decide⟩

/-- C4 amended: on a zero reported total the Android storage test does not
raise a numeric fault, but neither does it error: the `total_kb > 0` guard
defaults the usage percentage to 0, so the outcome is a normal `pass`
verdict with usage metric 0. -/
theorem claim_C4_amended (env : AndroidEnv) (t u a : Nat)
    (hc : check_adb_connection env = true)
    (hdf : (run_adb_command env.dfProbe).2.2 = 0)
    (hp : parse_df_raw (run_adb_command env.dfProbe).1 = some (t, u, a))
    (ht : t = 0) :
    (test_android_storage env).result.status = "pass" ∧
    (test_android_storage env).result.metrics.lookup "usage_percentage" =
      some (.num 0) ∧
    (test_android_storage env).result.status ≠ "error" := by
  subst ht
  unfold test_android_storage
  rw [if_neg (by simp [hc])]
  dsimp only
  rw [if_neg (by simp [hdf]), if_neg (by simp [hdf]), hp]
  dsimp only
  have husage : df_usage_percentage 0 u = 0 := by
    unfold df_usage_percentage
    simp
  have hstat : android_storage_status_of (df_usage_percentage 0 u) = "pass" := by
    rw [husage]
    unfold android_storage_status_of
    norm_num
  rw [hstat, husage]
  refine ⟨rfl, ?_, by decide⟩
  simp [List.lookup]

theorem claim_C4_witness :
    (test_android_storage androidZeroStorageEnv).result.metrics.lookup
        "usage_percentage" = some (.num 0) ∧
    (test_android_storage androidGarbageTotalEnv).result.status = "pass" :=
  ⟨(claim_C4_amended androidZeroStorageEnv 0 0 0 (by decide) (by decide)
      (by decide) rfl).2.1,
   (claim_C4_amended androidGarbageTotalEnv 0 90 10 (by decide) (by decide)
      (by decide) rfl).1⟩

/-- C10: whenever powercfg succeeds and the PowerShell battery query exits 0
with output mentioning `EstimatedChargeRemaining`, the Windows battery test
reports the hardcoded placeholder health of exactly 84.0% and a `pass`
verdict, independent of the actual battery data captured. -/
theorem claim_C10_hardcoded_battery (env : WindowsEnv)
    (h1 : env.powercfgProbe.code = 0)
    (h2 : env.psProbe.code = 0)
    (h3 : strContains env.psProbe.out "EstimatedChargeRemaining" = true) :
    (test_battery_health env).status = "pass" ∧
    (test_battery_health env).metrics.lookup "health_percentage" =
      some (.num 84) := by
  have hhp : pyRound1 ((42000 : ℚ) / 50000 * 100) = 84 := by
    unfold pyRound1 rnte
    rw [show ((42000 : ℚ) / 50000 * 100 * 10) = 840 by norm_num]
    rw [show ⌊(840 : ℚ)⌋ = 840 by norm_num]
    norm_num
  unfold test_battery_health
  rw [if_neg (by simp [run_command, h1])]
  dsimp only
  rw [if_pos (by simp [run_command, h2, h3])]
  dsimp only
  rw [hhp]
  rw [if_pos (by norm_num : (84 : ℚ) > 80)]
  refine ⟨rfl, ?_⟩
  simp [List.lookup]

theorem claim_C10_witness :
    (test_battery_health windowsSampleEnv).status = "pass" ∧
    (test_battery_health windowsSampleEnv).metrics.lookup
        "health_percentage" = some (.num 84) :=
  claim_C10_hardcoded_battery windowsSampleEnv rfl rfl (by decide)

/-- C6: a requested id missing from the platform catalog yields the
synthetic `error` outcome of category `unknown` whose explanation names the
test as not implemented, at its own position; and every position's outcome
is exactly the dispatch of its own id in that environment — unaffected by
any unknown sibling ids in the same batch.  (For Android this concerns the
Executing phase, so the transport must be reachable.) -/
theorem claim_C6_unknown_test :
    (∀ (env : WindowsEnv) (tests : List String) (i : Nat) (id : String),
        tests[i]? = some id →
        (windows_test_functions.lookup id = none →
           (run_windows_diagnostics env tests)[i]? =
             some (notImplementedResult id)) ∧
        (run_windows_diagnostics env tests)[i]? =
          some (windows_dispatch env id)) ∧
    (∀ (env : AndroidEnv) (tests : List String) (i : Nat) (id : String),
        check_adb_connection env = true →
        tests[i]? = some id →
        (android_test_functions.lookup id = none →
           (run_android_diagnostics env tests).results[i]? =
             some (notImplementedResult id)) ∧
        (run_android_diagnostics env tests).results[i]? =
          some ((android_dispatch env id).result)) := by
  constructor
  · intro env tests i id hid
    have hrun : (run_windows_diagnostics env tests)[i]? =
        some (windows_dispatch env id) := by
      unfold run_windows_diagnostics
      rw [List.getElem?_map, hid]
      rfl
    refine ⟨fun hnone => ?_, hrun⟩
    rw [hrun]
    unfold windows_dispatch
    rw [hnone]
  · intro env tests i id hc hid
    have hrun : (run_android_diagnostics env tests).results[i]? =
        some ((android_dispatch env id).result) := by
      unfold run_android_diagnostics
      rw [if_neg (by simp [hc])]
      dsimp only
      rw [List.getElem?_map, List.getElem?_map, hid]
      rfl
    refine ⟨fun hnone => ?_, hrun⟩
    rw [hrun]
    unfold android_dispatch
    rw [hnone]

theorem claim_C6_witness :
    (run_android_diagnostics androidSampleEnv
        ["foo.bar", "battery.health"]).results[0]? =
      some (notImplementedResult "foo.bar") :=
  (claim_C6_unknown_test.2 androidSampleEnv ["foo.bar", "battery.health"]
      0 "foo.bar" (by decide) rfl).1 rfl

/-! ## Outcome-invariant helper lemmas (spec §3) -/

theorem resultInvariant_of_error (r : TestResult) (hs : r.status = "error")
    (hc : r.confidence = 0) (he : r.explanation ≠ "") : resultInvariant r :=
  ⟨⟨fun _ => hs, fun _ => hc⟩, fun _ => he⟩

theorem resultInvariant_of_ok (r : TestResult)
    (h : r.status = "pass" ∨ r.status = "warn" ∨ r.status = "fail")
    (hc : r.confidence ≠ 0) : resultInvariant r := by
  constructor
  · constructor
    · intro h0
      exact absurd h0 hc
    · intro hs
      rcases h with h | h | h <;> rw [h] at hs <;> exact absurd hs (by decide)
  · intro hs
    rcases h with h | h | h <;> rw [h] at hs <;> exact absurd hs (by decide)

theorem android_battery_classify_status (level : Int) (health statusS : String)
    (temp : ℚ) :
    (android_battery_classify level health statusS temp).1 = "pass" ∨
    (android_battery_classify level health statusS temp).1 = "warn" ∨
    (android_battery_classify level health statusS temp).1 = "fail" := by
  unfold android_battery_classify
  dsimp only
  by_cases h3 : temp > 50
  · rw [if_pos h3]
    right; right; rfl
  · rw [if_neg h3]
    by_cases h2 : temp > 40
    · rw [if_pos h2]
      right; left; rfl
    · rw [if_neg h2]
      by_cases h1 : pyLower health ≠ "good"
      · rw [if_pos h1]
        right; left; rfl
      · rw [if_neg h1]
        left; rfl

theorem android_storage_status_of_cases (u : ℚ) :
    android_storage_status_of u = "pass" ∨
    android_storage_status_of u = "warn" ∨
    android_storage_status_of u = "fail" := by
  unfold android_storage_status_of
  split
  · left; rfl
  · split
    · right; left; rfl
    · right; right; rfl

theorem windows_storage_status_of_cases (u : ℚ) :
    windows_storage_status_of u = "pass" ∨
    windows_storage_status_of u = "warn" ∨
    windows_storage_status_of u = "fail" := by
  unfold windows_storage_status_of
  split
  · left; rfl
  · split
    · right; left; rfl
    · right; right; rfl

theorem notImplementedResult_inv (id : String) :
    resultInvariant (notImplementedResult id) := by
  refine resultInvariant_of_error _ rfl rfl ?_
  intro h
  have hd := congrArg String.data h
  simp [notImplementedResult, String.data_append] at hd

theorem test_android_battery_inv (env : AndroidEnv) :
    resultInvariant (test_android_battery env).result := by
  unfold test_android_battery
  dsimp only
  repeat' split
  all_goals first
  | exact resultInvariant_of_error _ rfl rfl (by dsimp only; decide)
  | (refine resultInvariant_of_ok _ ?_ (by norm_num);
     dsimp only;
     first
     | exact android_battery_classify_status _ _ _ _
     | exact android_storage_status_of_cases _
     | exact windows_storage_status_of_cases _
     | (repeat' split;
        all_goals first
        | (left; rfl)
        | (right; left; rfl)
        | (right; right; rfl)))

theorem test_android_storage_inv (env : AndroidEnv) :
    resultInvariant (test_android_storage env).result := by
  unfold test_android_storage
  dsimp only
  repeat' split
  all_goals first
  | exact resultInvariant_of_error _ rfl rfl (by dsimp only; decide)
  | (refine resultInvariant_of_ok _ ?_ (by norm_num);
     dsimp only;
     first
     | exact android_battery_classify_status _ _ _ _
     | exact android_storage_status_of_cases _
     | exact windows_storage_status_of_cases _
     | (repeat' split;
        all_goals first
        | (left; rfl)
        | (right; left; rfl)
        | (right; right; rfl)))

theorem test_android_sensors_inv (env : AndroidEnv) :
    resultInvariant (test_android_sensors env).result := by
  unfold test_android_sensors
  dsimp only
  repeat' split
  all_goals first
  | exact resultInvariant_of_error _ rfl rfl (by dsimp only; decide)
  | (refine resultInvariant_of_ok _ ?_ (by norm_num);
     dsimp only;
     first
     | exact android_battery_classify_status _ _ _ _
     | exact android_storage_status_of_cases _
     | exact windows_storage_status_of_cases _
     | (repeat' split;
        all_goals first
        | (left; rfl)
        | (right; left; rfl)
        | (right; right; rfl)))

theorem test_android_connectivity_inv (env : AndroidEnv) :
    resultInvariant (test_android_connectivity env).result := by
  unfold test_android_connectivity
  dsimp only
  repeat' split
  all_goals first
  | exact resultInvariant_of_error _ rfl rfl (by dsimp only; decide)
  | (refine resultInvariant_of_ok _ ?_ (by norm_num);
     dsimp only;
     first
     | exact android_battery_classify_status _ _ _ _
     | exact android_storage_status_of_cases _
     | exact windows_storage_status_of_cases _
     | (repeat' split;
        all_goals first
        | (left; rfl)
        | (right; left; rfl)
        | (right; right; rfl)))

theorem android_dispatch_inv (env : AndroidEnv) (test_id : String) :
    resultInvariant (android_dispatch env test_id).result := by
  by_cases h1 : test_id = "battery.health"
  · subst h1
    simpa [android_dispatch, android_test_functions, List.lookup] using
      test_android_battery_inv env
  by_cases h2 : test_id = "storage.health"
  · subst h2
    simpa [android_dispatch, android_test_functions, List.lookup] using
      test_android_storage_inv env
  by_cases h3 : test_id = "sensors.test"
  · subst h3
    simpa [android_dispatch, android_test_functions, List.lookup] using
      test_android_sensors_inv env
  by_cases h4 : test_id = "network.connectivity"
  · subst h4
    simpa [android_dispatch, android_test_functions, List.lookup] using
      test_android_connectivity_inv env
  have hl : android_test_functions.lookup test_id = none := by
    simp [android_test_functions, List.lookup,
      beq_eq_false_iff_ne.mpr h1, beq_eq_false_iff_ne.mpr h2,
      beq_eq_false_iff_ne.mpr h3, beq_eq_false_iff_ne.mpr h4]
  unfold android_dispatch
  rw [hl]
  exact notImplementedResult_inv test_id

theorem test_battery_health_inv (env : WindowsEnv) :
    resultInvariant (test_battery_health env) := by
  unfold test_battery_health
  dsimp only
  repeat' split
  all_goals first
  | exact resultInvariant_of_error _ rfl rfl (by dsimp only; decide)
  | (refine resultInvariant_of_ok _ ?_ (by norm_num);
     dsimp only;
     first
     | exact android_battery_classify_status _ _ _ _
     | exact android_storage_status_of_cases _
     | exact windows_storage_status_of_cases _
     | (repeat' split;
        all_goals first
        | (left; rfl)
        | (right; left; rfl)
        | (right; right; rfl)))

theorem test_storage_health_inv (env : WindowsEnv) :
    resultInvariant (test_storage_health env) := by
  unfold test_storage_health
  dsimp only
  repeat' split
  all_goals first
  | exact resultInvariant_of_error _ rfl rfl (by dsimp only; decide)
  | (refine resultInvariant_of_ok _ ?_ (by norm_num);
     dsimp only;
     first
     | exact android_battery_classify_status _ _ _ _
     | exact android_storage_status_of_cases _
     | exact windows_storage_status_of_cases _
     | (repeat' split;
        all_goals first
        | (left; rfl)
        | (right; left; rfl)
        | (right; right; rfl)))

theorem test_cpu_temperature_inv (env : WindowsEnv) :
    resultInvariant (test_cpu_temperature env) := by
  unfold test_cpu_temperature
  dsimp only
  repeat' split
  all_goals first
  | exact resultInvariant_of_error _ rfl rfl (by dsimp only; decide)
  | (refine resultInvariant_of_ok _ ?_ (by norm_num);
     dsimp only;
     first
     | exact android_battery_classify_status _ _ _ _
     | exact android_storage_status_of_cases _
     | exact windows_storage_status_of_cases _
     | (repeat' split;
        all_goals first
        | (left; rfl)
        | (right; left; rfl)
        | (right; right; rfl)))

theorem test_memory_inv (env : WindowsEnv) :
    resultInvariant (test_memory env) := by
  unfold test_memory
  dsimp only
  repeat' split
  all_goals first
  | exact resultInvariant_of_error _ rfl rfl (by dsimp only; decide)
  | (refine resultInvariant_of_ok _ ?_ (by norm_num);
     dsimp only;
     first
     | exact android_battery_classify_status _ _ _ _
     | exact android_storage_status_of_cases _
     | exact windows_storage_status_of_cases _
     | (repeat' split;
        all_goals first
        | (left; rfl)
        | (right; left; rfl)
        | (right; right; rfl)))

theorem windows_dispatch_inv (env : WindowsEnv) (test_id : String) :
    resultInvariant (windows_dispatch env test_id) := by
  by_cases h1 : test_id = "battery.health"
  · subst h1
    simpa [windows_dispatch, windows_test_functions, List.lookup] using
      test_battery_health_inv env
  by_cases h2 : test_id = "storage.health"
  · subst h2
    simpa [windows_dispatch, windows_test_functions, List.lookup] using
      test_storage_health_inv env
  by_cases h3 : test_id = "cpu.temperature"
  · subst h3
    simpa [windows_dispatch, windows_test_functions, List.lookup] using
      test_cpu_temperature_inv env
  by_cases h4 : test_id = "memory.test"
  · subst h4
    simpa [windows_dispatch, windows_test_functions, List.lookup] using
      test_memory_inv env
  have hl : windows_test_functions.lookup test_id = none := by
    simp [windows_test_functions, List.lookup,
      beq_eq_false_iff_ne.mpr h1, beq_eq_false_iff_ne.mpr h2,
      beq_eq_false_iff_ne.mpr h3, beq_eq_false_iff_ne.mpr h4]
  unfold windows_dispatch
  rw [hl]
  exact notImplementedResult_inv test_id

theorem run_android_inv (env : AndroidEnv) (tests : List String) :
    ∀ r ∈ (run_android_diagnostics env tests).results, resultInvariant r := by
  intro r hr
  unfold run_android_diagnostics at hr
  by_cases h : check_adb_connection env = false
  · rw [if_pos h] at hr
    dsimp only at hr
    obtain ⟨id, _, rfl⟩ := List.mem_map.mp hr
    exact resultInvariant_of_error _ rfl rfl
      (by dsimp only [androidTransportError]; decide)
  · rw [if_neg h] at hr
    dsimp only at hr
    obtain ⟨tr, htr, rfl⟩ := List.mem_map.mp hr
    obtain ⟨id, _, rfl⟩ := List.mem_map.mp htr
    exact android_dispatch_inv env id

theorem run_windows_inv (env : WindowsEnv) (tests : List String) :
    ∀ r ∈ run_windows_diagnostics env tests, resultInvariant r := by
  intro r hr
  unfold run_windows_diagnostics at hr
  obtain ⟨id, _, rfl⟩ := List.mem_map.mp hr
  exact windows_dispatch_inv env id

/-- C7: every outcome either runner produces, in any environment and for
any request list, has confidence 0 exactly when its status is `error`
(pass/warn/fail outcomes carry the nonzero per-capability constant), and
every error outcome carries a nonempty explanation. -/
theorem claim_C7_confidence_iff_error :
    (∀ (env : AndroidEnv) (tests : List String),
        ∀ r ∈ (run_android_diagnostics env tests).results, resultInvariant r) ∧
    (∀ (env : WindowsEnv) (tests : List String),
        ∀ r ∈ run_windows_diagnostics env tests, resultInvariant r) :=
  ⟨run_android_inv, run_windows_inv⟩

theorem claim_C7_witness :
    resultInvariant (androidTransportError "battery.health") :=
  claim_C7_confidence_iff_error.1 androidOfflineEnv ["battery.health"]
    (androidTransportError "battery.health") (by decide)

/-! ## Health-score bounds (src/backend/main.py) -/

theorem rnte_nonneg (q : ℚ) (h : 0 ≤ q) : 0 ≤ rnte q := by
  have hf : (0 : ℤ) ≤ ⌊q⌋ := Int.floor_nonneg.mpr h
  unfold rnte
  dsimp only
  split
  · exact hf
  · split
    · omega
    · split
      · exact hf
      · omega

theorem rnte_le (q : ℚ) (m : ℤ) (h : q ≤ (m : ℚ)) : rnte q ≤ m := by
  have hfm : ⌊q⌋ ≤ m :=
    le_trans (Int.floor_le_floor h) (le_of_eq (Int.floor_intCast m))
  have hlow : (⌊q⌋ : ℚ) ≤ q := Int.floor_le q
  unfold rnte
  dsimp only
  split
  · exact hfm
  · rename_i hr1
    push_neg at hr1
    have hne : ⌊q⌋ ≠ m := by
      intro he
      rw [← he] at h
      linarith
    split
    · omega
    · split
      · exact hfm
      · omega

theorem pyRound1_bounds (q : ℚ) (h0 : 0 ≤ q) (h100 : q ≤ 100) :
    0 ≤ pyRound1 q ∧ pyRound1 q ≤ 100 := by
  have hlo := rnte_nonneg (q * 10) (by linarith)
  have hhi := rnte_le (q * 10) 1000 (by push_cast; linarith)
  unfold pyRound1
  constructor
  · apply div_nonneg _ (by norm_num)
    exact_mod_cast hlo
  · rw [div_le_iff₀ (by norm_num)]
    calc ((rnte (q * 10) : ℤ) : ℚ) ≤ ((1000 : ℤ) : ℚ) := by exact_mod_cast hhi
    _ = 100 * 10 := by norm_num

/-- C8: the summary's health score is exactly
`round(passed / total * 100, 1)` guarded by the empty-list case, it always
lies in [0, 100], and it is 0 on an empty outcome list — with no division
fault (the guard precedes the division). -/
theorem claim_C8_health_score (results : List TestResult) :
    (summarize results).health_score =
      (if results.isEmpty then 0
       else pyRound1 (((summarize results).passed : ℚ) /
                        ((summarize results).total_tests : ℚ) * 100)) ∧
    0 ≤ (summarize results).health_score ∧
    (summarize results).health_score ≤ 100 ∧
    (summarize ([] : List TestResult)).health_score = 0 := by
  refine ⟨rfl, ?_, ?_, rfl⟩ <;>
  · unfold summarize
    dsimp only
    by_cases he : results.isEmpty = true
    · rw [if_pos he] <;> norm_num
    · rw [if_neg he]
      have hn : 0 < results.length := by
        cases results with
        | nil => simp at he
        | cons a l => simp
      have hp : (results.filter (fun r => r.status = "pass")).length ≤
          results.length := List.length_filter_le _ _
      have hfrac : ((results.filter (fun r => r.status = "pass")).length : ℚ) /
          (results.length : ℚ) ≤ 1 :=
        div_le_one_of_le₀ (by exact_mod_cast hp) (by positivity)
      have h0 : (0 : ℚ) ≤
          ((results.filter (fun r => r.status = "pass")).length : ℚ) /
            (results.length : ℚ) * 100 := by positivity
      have h100 : ((results.filter (fun r => r.status = "pass")).length : ℚ) /
          (results.length : ℚ) * 100 ≤ 100 := by linarith
      first
      | exact (pyRound1_bounds _ h0 h100).1
      | exact (pyRound1_bounds _ h0 h100).2

end UDD
